import Mathlib

/-!
Verification of the ROSA ROS1 tool layer (`src/rosa/tools/ros1.py`).

The Python module is a set of independent query/filter tools over external
ROS collaborators (graph registry, node registry, parameter server, package
index, log directory).  The shallow embedding below models each collaborator
as an explicit argument: a fallible call is an `Except String` value (the
`error` case standing for a raised Python exception carrying the exception
text), and the external `regex` library is an abstract matcher
`rm : String → String → Bool` taking the composed pattern string and the
candidate string.  Python strings are Lean `String`s; the Python string
operations used by the source (`startswith`, `replace`, `sorted`) are
embedded as kernel-computable functions over the underlying character list.

Tool outcomes distinguish a normal return (`ok`), a structured error payload
returned in place of the normal payload (`errorPayload`, the Python
`{"error": ...}` dictionary), and an exception that propagates out of the
tool because no `try/except` surrounds the failing call (`raised`).
-/

/-- Truthiness of a Python `Optional[str]` argument: `None` and `""` are falsy. -/
def truthy : Option String → Bool
  | none => false
  | some s => !(s == "")

/-- Value of a Python `Optional[str]` as interpolated into an f-string:
`None` prints as `"None"`. -/
def optStr : Option String → String
  | none => "None"
  | some s => s

/-- Python `s.startswith(pre)`, computed on the character lists so that the
kernel can evaluate it. -/
def pyStartsWith (s pre : String) : Bool := pre.data.isPrefixOf s.data

/-- One left-to-right, non-overlapping replacement pass over a character
list, as performed by CPython `str.replace` for a non-empty needle.  The
`Nat` argument is fuel bounding the recursion by the input length; each step
consumes at least one character, so the fuel never runs out on the inputs
`pyReplace` supplies. -/
def replaceChars (old new : List Char) : Nat → List Char → List Char
  | _, [] => []
  | 0, s => s
  | Nat.succ n, c :: rest =>
    if !old.isEmpty && old.isPrefixOf (c :: rest) then
      new ++ replaceChars old new n ((c :: rest).drop old.length)
    else
      c :: replaceChars old new n rest

/-- Python `s.replace(old, new)` for a non-empty `old`. -/
def pyReplace (s old new : String) : String :=
  String.mk (replaceChars old.data new.data s.data.length s.data)

/-- Lexicographic strict comparison of character lists by code point, the
order Python `sorted` uses on strings. -/
def strLtB : List Char → List Char → Bool
  | [], [] => false
  | [], _ :: _ => true
  | _ :: _, [] => false
  | c :: cs, d :: ds => if c < d then true else if d < c then false else strLtB cs ds

/-- The (total) order on strings underlying Python `sorted`. -/
def strLe (a b : String) : Prop := strLtB b.data a.data = false

instance : DecidableRel strLe := fun _ _ => instDecidableEqBool _ _

/-- Python `sorted` on a list of strings. -/
def sortStr (l : List String) : List String := l.insertionSort strLe

/-- Occurrence of `needle` as a contiguous sublist of `hay`. -/
def occursWithin (needle hay : List Char) : Bool :=
  match hay with
  | [] => needle.isEmpty
  | _ :: t => needle.isPrefixOf hay || occursWithin needle t

/-- Strip a leading and a trailing `.*` from a pattern's character list. -/
def stripDotStar (p : List Char) : List Char :=
  let p1 := if ['.', '*'].isPrefixOf p then p.drop 2 else p
  if ['.', '*'].isSuffixOf p1 then p1.dropLast.dropLast else p1

/-- Concrete matcher used to instantiate the abstract `regex` collaborator in
witnesses: the pattern is read as a literal after stripping `.*` affixes and
searched for as a substring.  This agrees with Python `regex.match` on the
literal patterns the witnesses use (a leading `.*` makes `match` an
unanchored substring search). -/
def pyMatch (patStr s : String) : Bool := occursWithin (stripDotStar patStr.data) s.data

/-- Outcome of calling one of the Python tool functions: a normal return, a
structured `error` payload substituted for the normal payload, or an
exception that propagates to the caller because the tool has no `try/except`
around the failing call. -/
inductive PyResult (α : Type) where
  | ok (val : α)
  | errorPayload (msg : String)
  | raised (msg : String)
deriving DecidableEq

/-- The three filtering stages of `get_entities` (`ros1.py` lines 48-75):
namespace restriction, include-pattern match, blacklist subtraction. -/
inductive Stage
  | ns
  | pat
  | bl
deriving DecidableEq

/-- Namespace stage of `get_entities`: when the namespace argument is truthy,
keep entities starting with `namespace + "/"` (`ros1.py` lines 48-49). -/
def nsFilter (nsArg : Option String) (l : List String) : List String :=
  if truthy nsArg then l.filter (fun x => pyStartsWith x (optStr nsArg ++ "/")) else l

/-- Pattern stage of `get_entities`: when the pattern argument is truthy,
keep entities matched by `regex.match(f".*{pattern}", x)` (lines 52-53). -/
def patFilter (rm : String → String → Bool) (patArg : Option String) (l : List String) : List String :=
  if truthy patArg then l.filter (fun x => rm (".*" ++ optStr patArg) x) else l

/-- Blacklist stage of `get_entities` and of the listing tools: when the
blacklist is truthy (non-empty), drop entries matched by any blacklist
pattern (lines 67-75). -/
def blFilter (rm : String → String → Bool) (bl : List String) (l : List String) : List String :=
  if bl.isEmpty then l else l.filter (fun x => !(bl.any (fun w => rm (".*" ++ w) x)))

/-- Dispatch a `Stage` to the corresponding filter of `get_entities`. -/
def applyStage (rm : String → String → Bool) (patArg nsArg : Option String) (bl : List String) :
    Stage → List String → List String
  | Stage.ns, l => nsFilter nsArg l
  | Stage.pat, l => patFilter rm patArg l
  | Stage.bl, l => blFilter rm bl l

/-- Apply a sequence of `get_entities` filter stages in order. -/
def applyStages (rm : String → String → Bool) (patArg nsArg : Option String) (bl : List String)
    (stages : List Stage) (l : List String) : List String :=
  stages.foldl (fun acc s => applyStage rm patArg nsArg bl s acc) l

/-- Placeholder returned by `get_entities` when the system has no entities at
all (`ros1.py` line 57). -/
def noneAvailMsg (ty : String) : String :=
  "There are currently no " ++ ty ++ "s available in the system."

/-- Placeholder returned by `get_entities` when the namespace filter empties
the list (lines 59-61). -/
def noneNsMsg (ty : String) (nsArg : Option String) : String :=
  "There are currently no " ++ ty ++ "s available using the \x27" ++ optStr nsArg ++ "\x27 namespace."

/-- Placeholder returned by `get_entities` when the pattern filter empties
the list (lines 63-65). -/
def nonePatMsg (ty : String) : String :=
  "There are currently no " ++ ty ++ "s available matching the specified pattern."

/-- The four values returned by `get_entities`:
`return total, in_namespace, match_pattern, sorted(entities)`. -/
structure EntitiesResult where
  total : Nat
  in_namespace : Nat
  match_pattern : Nat
  entities : List String
deriving DecidableEq

/-- Pure body of `get_entities` (`ros1.py` lines 46-77), applied to the
entity list fetched from the registry: count, namespace filter, count,
pattern filter, count, empty-case placeholder substitution, blacklist
filter, final sort. -/
def entitiesPipeline (rm : String → String → Bool) (ty : String) (patArg nsArg : Option String)
    (bl : List String) (entities0 : List String) : EntitiesResult :=
  let total := entities0.length
  let e1 := applyStage rm patArg nsArg bl Stage.ns entities0
  let in_namespace := e1.length
  let e2 := applyStage rm patArg nsArg bl Stage.pat e1
  let match_pattern := e2.length
  let e3 :=
    if total = 0 then [noneAvailMsg ty]
    else if in_namespace = 0 then [noneNsMsg ty nsArg]
    else if match_pattern = 0 then [nonePatMsg ty]
    else e2
  let e4 := applyStage rm patArg nsArg bl Stage.bl e3
  ⟨total, in_namespace, match_pattern, sortStr e4⟩

/-- Entity list fetched for `type == "topic"` (`ros1.py` lines 39-43):
topic names of publications and subscriptions, deduplicated and sorted. -/
def topicEntities (tl : List (String × String) × List (String × String)) : List String :=
  sortStr ((tl.1.map Prod.fst ++ tl.2.map Prod.fst).dedup)

/-- Embedding of `get_entities` (`ros1.py` lines 30-77).  The registry
collaborators `rostopic.get_topic_list` and `rosnode.get_node_names` are
passed as `Except` values; a raised registry exception propagates out of
`get_entities` unchanged (the function has no `try/except`). -/
def get_entities (rm : String → String → Bool) (ty : String) (patArg nsArg : Option String)
    (bl : List String)
    (get_topic_list : Except String (List (String × String) × List (String × String)))
    (get_node_names : Except String (List String)) : Except String EntitiesResult :=
  match (if ty = "topic" then Except.map topicEntities get_topic_list
         else if ty = "node" then get_node_names
         else Except.ok []) with
  | Except.error e => Except.error e
  | Except.ok ents => Except.ok (entitiesPipeline rm ty patArg nsArg bl ents)

/-- Payload of `rostopic_list` / `rosnode_list` on success: namespace and
pattern echoed back with their defaults, the three stage counters, and the
final name list. -/
structure ListToolResult where
  ns_used : String
  pattern_used : String
  total : Nat
  in_namespace : Nat
  match_pattern : Nat
  names : List String
deriving DecidableEq

/-- Python `namespace if namespace else "/"`. -/
def nsDefault (o : Option String) : String := if truthy o then optStr o else "/"

/-- Python `pattern if pattern else ".*"`. -/
def patDefault (o : Option String) : String := if truthy o then optStr o else ".*"

/-- Embedding of the `rostopic_list` tool (`ros1.py` lines 210-238): wraps
`get_entities "topic"` and converts a raised registry exception into the
structured error payload `{"error": f"Failed to get ROS topics: {e}"}`. -/
def rostopic_list (rm : String → String → Bool) (patArg nsArg : Option String) (bl : List String)
    (get_topic_list : Except String (List (String × String) × List (String × String)))
    (get_node_names : Except String (List String)) : PyResult ListToolResult :=
  match get_entities rm "topic" patArg nsArg bl get_topic_list get_node_names with
  | Except.error e => PyResult.errorPayload ("Failed to get ROS topics: " ++ e)
  | Except.ok r =>
    PyResult.ok ⟨nsDefault nsArg, patDefault patArg, r.total, r.in_namespace, r.match_pattern, r.entities⟩

/-- Embedding of the `rosnode_list` tool (`ros1.py` lines 241-269), the
`"node"` counterpart of `rostopic_list`. -/
def rosnode_list (rm : String → String → Bool) (patArg nsArg : Option String) (bl : List String)
    (get_topic_list : Except String (List (String × String) × List (String × String)))
    (get_node_names : Except String (List String)) : PyResult ListToolResult :=
  match get_entities rm "node" patArg nsArg bl get_topic_list get_node_names with
  | Except.error e => PyResult.errorPayload ("Failed to get ROS nodes: " ++ e)
  | Except.ok r =>
    PyResult.ok ⟨nsDefault nsArg, patDefault patArg, r.total, r.in_namespace, r.match_pattern, r.entities⟩

/-- Keep decision of the namespace guard in the map-building loops of
`rosgraph_get` (`ros1.py` lines 120-121, 129-130): skip a node when the
namespace is truthy and the node does not start with it (no slash appended
here, unlike `get_entities`). -/
def nsKeep (nsArg : Option String) (node : String) : Bool :=
  !(truthy nsArg && !(pyStartsWith node (optStr nsArg)))

/-- Append a node under a topic key, preserving dict insertion order: the
`if pub[0] in topic_pub_map` update of `ros1.py` lines 122-125. -/
def mapAdd (m : List (String × List String)) (k v : String) : List (String × List String) :=
  if m.any (fun p => p.1 == k) then
    m.map (fun p => if p.1 == k then (p.1, p.2 ++ [v]) else p)
  else m ++ [(k, [v])]

/-- Build `topic_pub_map` / `topic_sub_map` from the raw system state
(`ros1.py` lines 118-134): iterate the (topic, node list) associations,
skipping nodes outside the namespace. -/
def buildTopicMap (nsArg : Option String) (raw : List (String × List String)) :
    List (String × List String) :=
  raw.foldl
    (fun m pr => pr.2.foldl (fun m2 node => if nsKeep nsArg node then mapAdd m2 pr.1 node else m2) m)
    []

/-- Python `topic in map` / `map[topic]` on the insertion-ordered
association list (keys are unique by construction of `mapAdd`). -/
def lookupMap (m : List (String × List String)) (k : String) : Option (List String) :=
  (m.find? (fun p => p.1 == k)).map (fun p => p.2)

/-- Skip decision of the topic-pattern guard inside the join loop
(`ros1.py` line 141): skip when the pattern is truthy and
`regex.match(f"{topic_pattern}", topic)` fails (no `.*` composed here). -/
def topicPatSkip (rm : String → String → Bool) (tpat : Option String) (topic : String) : Bool :=
  truthy tpat && !(rm (optStr tpat) topic)

/-- Join of the two topic maps into (publisher, topic, subscriber) triples
(`ros1.py` lines 137-143): for every topic of the publisher map also present
in the subscriber map, emit the publisher × subscriber cross product,
dropping topics rejected by the topic pattern. -/
def rawGraph (rm : String → String → Bool) (tpat : Option String)
    (pubMap subMap : List (String × List String)) : List (String × String × String) :=
  pubMap.flatMap (fun tp =>
    match lookupMap subMap tp.1 with
    | none => []
    | some subs =>
      tp.2.flatMap (fun pub =>
        subs.filterMap (fun sub =>
          if topicPatSkip rm tpat tp.1 then none else some (pub, tp.1, sub))))

/-- The three fields of a graph triple in the order Python iterates the
tuple `(pub, topic, sub)`. -/
def tripleEntries (t : String × String × String) : List String := [t.1, t.2.1, t.2.2]

/-- Blacklist filter over graph triples (`ros1.py` lines 146-154): drop a
triple when any blacklist word matches any of its three fields under
`regex.match(f".*{word}.*", entry)`.  The Python code first normalizes a
`None` blacklist to `[]` and then filters unconditionally. -/
def blFilterG (rm : String → String → Bool) (bl : List String)
    (g : List (String × String × String)) : List (String × String × String) :=
  g.filter (fun x => !(bl.any (fun word => (tripleEntries x).any (fun entry => rm (".*" ++ word ++ ".*") entry))))

/-- Node-pattern filter (`ros1.py` lines 157-164): when the node pattern is
truthy, keep a triple when the pattern matches its publisher or its
subscriber (not its topic). -/
def nodePatFilter (rm : String → String → Bool) (npat : Option String)
    (g : List (String × String × String)) : List (String × String × String) :=
  if truthy npat then g.filter (fun x => rm (optStr npat) x.1 || rm (optStr npat) x.2.2) else g

/-- Self-connection exclusion (`ros1.py` lines 166-167), applied last. -/
def selfFilter (exclude : Bool) (g : List (String × String × String)) :
    List (String × String × String) :=
  if exclude then g.filter (fun x => x.1 != x.2.2) else g

/-- Full filtered graph of `rosgraph_get`: join, blacklist, node pattern,
self-exclusion, in the implemented order. -/
def graphPipeline (rm : String → String → Bool) (nsArg npat tpat : Option String)
    (bl : List String) (exclude : Bool)
    (publishers subscribers : List (String × List String)) : List (String × String × String) :=
  selfFilter exclude
    (nodePatFilter rm npat
      (blFilterG rm bl
        (rawGraph rm tpat (buildTopicMap nsArg publishers) (buildTopicMap nsArg subscribers))))

/-- Successful response dictionary of `rosgraph_get` (`ros1.py` lines
190-207), with the constant convention strings elided and `warning` the
optional oversize warning. -/
structure GraphResponse where
  node_count : Nat
  topic_count : Nat
  total_connections : Nat
  graph : List (String × String × String)
  warning : Option String
deriving DecidableEq

/-- Warning attached when the graph exceeds 50 edges (`ros1.py` lines
199-205). -/
def graphWarningText : String :=
  "The graph is too large to display or render (size > 50. Please make some recommendations to the user on how to filter the graph to a more manageable size. Do not attempt to render the graph."

/-- Successful response assembled from the final graph (`ros1.py` lines
175-207): distinct publisher/subscriber count, distinct topic count, edge
count, the untruncated graph, and the oversize warning when the edge count
exceeds 50. -/
def graphResponseOf (g : List (String × String × String)) : GraphResponse :=
  ⟨((g.map (fun t => t.1)) ++ (g.map (fun t => t.2.2))).dedup.length,
   (g.map (fun t => t.2.1)).dedup.length,
   g.length,
   g,
   if 50 < g.length then some graphWarningText else none⟩

/-- Embedding of the `rosgraph_get` tool (`ros1.py` lines 80-207).  The
`getSystemState` collaborator is the `rosgraph.masterapi` call; its failure
is caught and converted into the structured error payload (the `Except.error`
result models the returned `{"error": ...}` dictionary, never a raised
exception).  An empty final graph also yields an error payload naming the
blacklist. -/
def rosgraph_get (rm : String → String → Bool)
    (getSystemState : Except String
      (List (String × List String) × List (String × List String) × List (String × List String)))
    (nsArg npat tpat : Option String) (bl : List String) (exclude_self_connections : Bool) :
    Except String GraphResponse :=
  match getSystemState with
  | Except.error e => Except.error ("Failed to get ROS graph: " ++ e)
  | Except.ok st =>
    let graph := graphPipeline rm nsArg npat tpat bl exclude_self_connections st.1 st.2.1
    if graph.isEmpty then
      Except.error
        ("No results found for the specified parameters. Note that the following have been excluded: "
          ++ toString bl)
    else
      Except.ok (graphResponseOf graph)

/-- Embedding of the `rosparam_get` tool (`ros1.py` lines 498-509): one
`rosparam.get_param` call per requested key, accumulating a key → value
mapping in order.  The function has no `try/except`, so the first failing
key raises out of the tool, aborting the batch. -/
def rosparam_getLoop (get_param : String → Except String String) :
    List String → List (String × String) → PyResult (List (String × String))
  | [], values => PyResult.ok values
  | p :: rest, values =>
    match get_param p with
    | Except.ok v => rosparam_getLoop get_param rest (values ++ [(p, v)])
    | Except.error e => PyResult.raised e

/-- Entry point of the `rosparam_get` embedding. -/
def rosparam_get (get_param : String → Except String String) (params : List String) :
    PyResult (List (String × String)) :=
  rosparam_getLoop get_param params []

/-- Target key computed by `rosparam_set` (`ros1.py` lines 521-522): when
`is_rosa_param` is set and the key does not already start with `"/rosa"`,
reroute it to `f"/rosa/{param}".replace("//", "/")`. -/
def rosaTargetKey (param : String) (is_rosa_param : Bool) : String :=
  if is_rosa_param && !(pyStartsWith param "/rosa") then
    pyReplace ("/rosa/" ++ param) "//" "/"
  else param

/-- Embedding of the `rosparam_set` tool (`ros1.py` lines 512-530): returns
the key passed to the underlying `rosparam.set_param` call (making the
written key observable) together with the returned string — the confirmation
on success, or the failure-prefixed retry string when `set_param` raises
(the call is wrapped in `try/except`). -/
def rosparam_set (set_param : String → String → Except String Unit) (param value : String)
    (is_rosa_param : Bool) : String × String :=
  let key := rosaTargetKey param is_rosa_param
  (key,
   match set_param key value with
   | Except.ok _ => "Set parameter \x27" ++ key ++ "\x27 to \x27" ++ value ++ "\x27."
   | Except.error e =>
     "Failed to set parameter \x27" ++ key ++ "\x27 to \x27" ++ value ++ "\x27: " ++ e ++ ". Try again!")

/-- Descending-by-size order on the (file, byte size) pairs of
`roslog_list`. -/
def sizeGe (a b : String × Nat) : Prop := b.2 ≤ a.2

instance : DecidableRel sizeGe := fun _ _ => Nat.decLe _ _

instance : IsTotal (String × Nat) sizeGe := ⟨fun a b => Nat.le_total b.2 a.2⟩

instance : IsTrans (String × Nat) sizeGe := ⟨fun _ _ _ h1 h2 => Nat.le_trans h2 h1⟩

/-- Response dictionary of `roslog_list` (`ros1.py` lines 646-650); the size
mapping is the insertion-ordered dict, represented as an association list. -/
structure LogListResult where
  log_file_directory : String
  logs_with_size_in_bytes : List (String × Nat)
  notes : String
deriving DecidableEq

/-- Embedding of the `roslog_list` tool (`ros1.py` lines 616-650):
`log_dir = f"{rospkg.get_log_dir()}/"`, list the directory, drop blacklisted
names, keep files of size at least `min_size` (default 2048 in the source),
and sort the size mapping largest-first (Python `sorted` is a stable sort).
The directory listing has no `try/except`, so its failure raises out of the
tool. -/
def roslog_list (rm : String → String → Bool) (get_log_dir : String)
    (listdir : Except String (List String)) (getsize : String → Nat) (min_size : Nat)
    (bl : List String) : PyResult LogListResult :=
  let log_dir := get_log_dir ++ "/"
  match listdir with
  | Except.error e => PyResult.raised e
  | Except.ok logs0 =>
    let logs := logs0.filter (fun x => !(bl.any (fun w => rm (".*" ++ w) x)))
    let log_sizes := logs.filterMap (fun log =>
      let size := getsize (log_dir ++ log)
      if min_size ≤ size then some (log, size) else none)
    PyResult.ok
      ⟨log_dir, log_sizes.insertionSort sizeGe,
       "Recommend only displaying the top N log files when you present this list to the user."⟩

/-- Python substring containment `sub in s`. -/
def pyInStr (sub s : String) : Bool := occursWithin sub.data s.data

/-- Python `s.endswith(suf)`, computed on the character lists. -/
def pyEndsWith (s suf : String) : Bool := suf.data.isSuffixOf s.data

/-- Python `s.strip()` for the ASCII whitespace appearing in ROS status
text. -/
def pyStrip (s : String) : String :=
  String.mk (((s.data.dropWhile (fun c => c.isWhitespace)).reverse.dropWhile
    (fun c => c.isWhitespace)).reverse)

/-- Python `s.split(sep)` for a single-character separator. -/
def splitOnChar (c : Char) : List Char → List (List Char)
  | [] => [[]]
  | d :: rest =>
    let r := splitOnChar c rest
    if d == c then [] :: r
    else
      match r with
      | [] => [[d]]
      | h :: t => (d :: h) :: t

/-- The `strip_star` helper of `rostopic_info` (`ros1.py` lines 309-310):
`line.strip().replace("* ", "")`. -/
def stripStar (line : String) : String := pyReplace (pyStrip line) "* " ""

/-- The `Type:` line capture of `rostopic_info` (`ros1.py` lines 298-301):
`regex.match(r"Type: (.+)", info_text)` is anchored at the start, `.` does
not match a newline, and the group needs at least one character. -/
def parseTypeLine (info : String) : Option String :=
  if pyStartsWith info "Type: " then
    let rest := (info.data.drop 6).takeWhile (fun c => !(c == '\n'))
    if rest.isEmpty then none else some (String.mk rest)
  else none

/-- The section-capture loop of `rostopic_info` (`ros1.py` lines 305-325):
sentinel lines containing `Publishers:` / `Subscribers:` toggle the capture
flags, other lines are stripped of bullets and appended to the active
section. -/
def topicInfoLoop : List String → Bool → Bool → List String → List String →
    List String × List String
  | [], _, _, pubs, subs => (pubs, subs)
  | line :: rest, cp, cs, pubs, subs =>
    if pyInStr "Publishers:" line then topicInfoLoop rest true cs pubs subs
    else if pyInStr "Subscribers:" line then topicInfoLoop rest false true pubs subs
    else
      let pubs1 := if cp then pubs ++ [stripStar line] else pubs
      let subs1 := if cs then subs ++ [stripStar line] else subs
      topicInfoLoop rest cp cs pubs1 subs1

/-- Per-topic record built by `rostopic_info` (`ros1.py` lines 291-296);
`ty` stands for the Python `"type"` key. -/
structure TopicDetails where
  topic : String
  ty : Option String
  publishers : List String
  subscribers : List String
deriving DecidableEq

/-- Parse of one `rostopic.get_info_text` block (`ros1.py` lines 283-326). -/
def parseTopicInfo (topic info : String) : TopicDetails :=
  ⟨topic, parseTypeLine info,
   (topicInfoLoop ((splitOnChar '\n' info.data).map String.mk) false false [] []).1,
   (topicInfoLoop ((splitOnChar '\n' info.data).map String.mk) false false [] []).2⟩

/-- The per-topic loop of `rostopic_info` (`ros1.py` lines 281-326): one
`get_info_text` call per topic with no `try/except`, so the first failure
raises out of the tool. -/
def rostopic_infoLoop (get_info_text : String → Except String String) :
    List String → List (String × TopicDetails) → PyResult (List (String × TopicDetails))
  | [], details => PyResult.ok details
  | t :: rest, details =>
    match get_info_text t with
    | Except.ok info =>
      rostopic_infoLoop get_info_text rest (details ++ [(t, parseTopicInfo t info)])
    | Except.error e => PyResult.raised e

/-- Embedding of the `rostopic_info` tool (`ros1.py` lines 272-328). -/
def rostopic_info (get_info_text : String → Except String String) (topics : List String) :
    PyResult (List (String × TopicDetails)) :=
  rostopic_infoLoop get_info_text topics []

/-- The per-node loop of `rosnode_info` (`ros1.py` lines 355-357): one
`get_node_info_description` call per node, newlines flattened to spaces; no
`try/except`. -/
def rosnode_infoLoop (get_node_info : String → Except String String) :
    List String → List (String × String) → PyResult (List (String × String))
  | [], details => PyResult.ok details
  | n :: rest, details =>
    match get_node_info n with
    | Except.ok info =>
      rosnode_infoLoop get_node_info rest (details ++ [(n, pyReplace info "\n" " ")])
    | Except.error e => PyResult.raised e

/-- Embedding of the `rosnode_info` tool (`ros1.py` lines 346-359). -/
def rosnode_info (get_node_info : String → Except String String) (nodes : List String) :
    PyResult (List (String × String)) :=
  rosnode_infoLoop get_node_info nodes []

/-- The per-service loop of `rosservice_info` (`ros1.py` lines 434-437):
`get_service_uri` then `get_service_headers` per service; no `try/except`. -/
def rosservice_infoLoop (get_service_uri : String → Except String String)
    (get_service_headers : String → String → Except String String) :
    List String → List (String × String) → PyResult (List (String × String))
  | [], details => PyResult.ok details
  | s :: rest, details =>
    match get_service_uri s with
    | Except.error e => PyResult.raised e
    | Except.ok uri =>
      match get_service_headers s uri with
      | Except.error e => PyResult.raised e
      | Except.ok info =>
        rosservice_infoLoop get_service_uri get_service_headers rest (details ++ [(s, info)])

/-- Embedding of the `rosservice_info` tool (`ros1.py` lines 425-439). -/
def rosservice_info (get_service_uri : String → Except String String)
    (get_service_headers : String → String → Except String String) (services : List String) :
    PyResult (List (String × String)) :=
  rosservice_infoLoop get_service_uri get_service_headers services []

/-- The per-message loop of `rosmsg_info` (`ros1.py` lines 451-453); no
`try/except`. -/
def rosmsg_infoLoop (get_msg_text : String → Except String String) :
    List String → List (String × String) → PyResult (List (String × String))
  | [], details => PyResult.ok details
  | m :: rest, details =>
    match get_msg_text m with
    | Except.ok txt => rosmsg_infoLoop get_msg_text rest (details ++ [(m, txt)])
    | Except.error e => PyResult.raised e

/-- Embedding of the `rosmsg_info` tool (`ros1.py` lines 442-454). -/
def rosmsg_info (get_msg_text : String → Except String String) (msg_type : List String) :
    PyResult (List (String × String)) :=
  rosmsg_infoLoop get_msg_text msg_type []

/-- The per-type loop of `rossrv_info` (`ros1.py` lines 467-472), passing
the `raw` flag through to `get_srv_text`; no `try/except`. -/
def rossrv_infoLoop (get_srv_text : String → Bool → Except String String) (raw : Bool) :
    List String → List (String × String) → PyResult (List (String × String))
  | [], details => PyResult.ok details
  | s :: rest, details =>
    match get_srv_text s raw with
    | Except.ok txt => rossrv_infoLoop get_srv_text raw rest (details ++ [(s, txt)])
    | Except.error e => PyResult.raised e

/-- Embedding of the `rossrv_info` tool (`ros1.py` lines 457-472). -/
def rossrv_info (get_srv_text : String → Bool → Except String String) (srv_type : List String)
    (raw : Bool) : PyResult (List (String × String)) :=
  rossrv_infoLoop get_srv_text raw srv_type []

/-- Embedding of the `rosservice_list` tool (`ros1.py` lines 362-422),
modelled for the `include_nodes = False` shape in which the returned
elements are service-name strings, as the subsequent string filters assume.
The `get_service_list` call is not wrapped in `try/except`, so its failure
raises out of the tool; the logging/rosapi/parameter exclusions, the
exclude pattern, the include pattern and the blacklist are applied in the
source's order. -/
def rosservice_list (rm : String → String → Bool)
    (get_service_list : Option String → Option String → Bool → Except String (List String))
    (node nsArg : Option String) (include_nodes : Bool) (regex_pattern : Option String)
    (exclude_logging exclude_rosapi exclude_parameters : Bool)
    (exclude_pattern : Option String) (bl : List String) : PyResult (List String) :=
  match get_service_list node nsArg include_nodes with
  | Except.error e => PyResult.raised e
  | Except.ok services0 =>
    let s1 := if exclude_logging then
        (services0.filter (fun x => !(pyStartsWith x "/rosout"))).filter
          (fun x => !(pyInStr "logger" x))
      else services0
    let s2 := if exclude_rosapi then s1.filter (fun x => !(pyStartsWith x "/rosapi")) else s1
    let s3 := if exclude_parameters then s2.filter (fun x => !(pyInStr "param" x)) else s2
    let s4 := if truthy exclude_pattern then
        s3.filter (fun x => !(rm (".*" ++ optStr exclude_pattern) x))
      else s3
    let s5 := if truthy regex_pattern then
        s4.filter (fun x => rm (".*" ++ optStr regex_pattern) x)
      else s4
    PyResult.ok (blFilter rm bl s5)

/-- Response dictionary of `rosparam_list` (`ros1.py` line 493). -/
structure ParamListResult where
  ns_used : String
  total : Nat
  ros_params : List String
deriving DecidableEq

/-- Embedding of the `rosparam_list` tool (`ros1.py` lines 475-495): the
`list_params` call and the blacklist filter sit inside `try/except`, so a
failure is converted into the structured `{"error": ...}` payload. -/
def rosparam_list (rm : String → String → Bool)
    (list_params : String → Except String (List String)) (nsp : String) (bl : List String) :
    PyResult ParamListResult :=
  match list_params nsp with
  | Except.error e => PyResult.errorPayload ("Failed to get ROS parameters: " ++ e)
  | Except.ok params0 =>
    let params := blFilter rm bl params0
    PyResult.ok ⟨nsp, params.length, params⟩

/-- Response dictionary of `rospkg_list` (`ros1.py` lines 570-575). -/
structure PkgListResult where
  total : Nat
  msg_pkg_count : Nat
  match_pattern : Nat
  packages : List String
deriving DecidableEq

/-- Embedding of the `rospkg_list` tool (`ros1.py` lines 533-577): package
enumeration with optional `msgs`-suffix exclusion, include pattern (skipped
for the default `".*"`), blacklist, and final sort; the `RosPack().list()`
call is not wrapped in `try/except`, so its failure raises out of the
tool. -/
def rospkg_list (rm : String → String → Bool) (list_pkgs : Except String (List String))
    (package_pattern : String) (ignore_msgs : Bool) (bl : List String) : PyResult PkgListResult :=
  match list_pkgs with
  | Except.error e => PyResult.raised e
  | Except.ok packages0 =>
    let count := packages0.length
    let p1 := if ignore_msgs then packages0.filter (fun x => !(pyEndsWith x "msgs")) else packages0
    let msg_pkg_count := count - p1.length
    let p2 := if !(package_pattern == "") && !(package_pattern == ".*") then
        p1.filter (fun x => rm (".*" ++ package_pattern) x)
      else p1
    let p3 := blFilter rm bl p2
    PyResult.ok ⟨count, msg_pkg_count, p3.length, sortStr p3⟩

/-- The per-package loop of `rospkg_info` (`ros1.py` lines 590-604):
`get_path`, `get_depends_on` and `get_manifest` per package with no
`try/except`; the manifest is modelled as (slot name, printed value) pairs,
of which the underscore-prefixed and falsy (empty) ones are dropped. -/
def rospkg_infoLoop (get_path : String → Except String String)
    (get_depends_on : String → Except String (List String))
    (get_manifest : String → Except String (List (String × String))) :
    List String → List (String × String × List String × List (String × String)) →
    PyResult (List (String × String × List String × List (String × String)))
  | [], details => PyResult.ok details
  | p :: rest, details =>
    match get_path p with
    | Except.error e => PyResult.raised e
    | Except.ok path =>
      match get_depends_on p with
      | Except.error e => PyResult.raised e
      | Except.ok deps =>
        match get_manifest p with
        | Except.error e => PyResult.raised e
        | Except.ok manifest =>
          rospkg_infoLoop get_path get_depends_on get_manifest rest
            (details ++ [(p, path, deps,
              manifest.filter (fun a => !(pyStartsWith a.1 "_") && !(a.2 == "")))])

/-- Embedding of the `rospkg_info` tool (`ros1.py` lines 580-606). -/
def rospkg_info (get_path : String → Except String String)
    (get_depends_on : String → Except String (List String))
    (get_manifest : String → Except String (List (String × String))) (packages : List String) :
    PyResult (List (String × String × List String × List (String × String))) :=
  rospkg_infoLoop get_path get_depends_on get_manifest packages []

lemma filter_comm (p q : α → Bool) (l : List α) : (l.filter q).filter p = (l.filter p).filter q := by
  rw [List.filter_filter, List.filter_filter]
  congr 1
  funext a
  rw [Bool.and_comm]

lemma filter_self_idem (p : α → Bool) (l : List α) : (l.filter p).filter p = l.filter p := by
  rw [List.filter_filter]
  simp only [Bool.and_self]

lemma applyStage_cases (rm : String → String → Bool) (patArg nsArg : Option String)
    (bl : List String) (s : Stage) :
    (∀ l, applyStage rm patArg nsArg bl s l = l) ∨
      ∃ p, ∀ l, applyStage rm patArg nsArg bl s l = l.filter p := by
  cases s with
  | ns =>
    cases h : truthy nsArg with
    | false => exact Or.inl (fun l => by simp [applyStage, nsFilter, h])
    | true =>
      exact Or.inr ⟨fun x => pyStartsWith x (optStr nsArg ++ "/"), fun l => by
        simp [applyStage, nsFilter, h]⟩
  | pat =>
    cases h : truthy patArg with
    | false => exact Or.inl (fun l => by simp [applyStage, patFilter, h])
    | true =>
      exact Or.inr ⟨fun x => rm (".*" ++ optStr patArg) x, fun l => by
        simp [applyStage, patFilter, h]⟩
  | bl =>
    cases h : bl.isEmpty with
    | true => exact Or.inl (fun l => by simp [applyStage, blFilter, h])
    | false =>
      exact Or.inr ⟨fun x => !(bl.any (fun w => rm (".*" ++ w) x)), fun l => by
        simp [applyStage, blFilter, h]⟩

lemma applyStage_comm (rm : String → String → Bool) (patArg nsArg : Option String)
    (bl : List String) (s t : Stage) (l : List String) :
    applyStage rm patArg nsArg bl s (applyStage rm patArg nsArg bl t l) =
      applyStage rm patArg nsArg bl t (applyStage rm patArg nsArg bl s l) := by
  rcases applyStage_cases rm patArg nsArg bl s with hs | ⟨p, hs⟩ <;>
    rcases applyStage_cases rm patArg nsArg bl t with ht | ⟨q, ht⟩ <;>
      simp only [hs, ht]
  exact filter_comm p q l

lemma foldl_stages_perm (f : List String → Stage → List String)
    (hcomm : ∀ l s t, f (f l s) t = f (f l t) s) {σ τ : List Stage} (h : σ.Perm τ) :
    ∀ l, σ.foldl f l = τ.foldl f l := by
  induction h with
  | nil => intro l; rfl
  | cons x _ ih => intro l; exact ih (f l x)
  | swap x y l' => intro l; simp only [List.foldl_cons, hcomm l y x]
  | trans _ _ ih1 ih2 => intro l; rw [ih1, ih2]

/-- C2: the three filter stages of the entity lister commute — applying
them in any order yields the same final list as the implemented order
namespace, pattern, blacklist; only the stage-cardinality counters (taken
between stages in `entitiesPipeline`) depend on the order. -/
theorem entity_filter_stages_commute (rm : String → String → Bool)
    (patArg nsArg : Option String) (bl : List String) (l : List String) (σ : List Stage)
    (h : σ.Perm [Stage.ns, Stage.pat, Stage.bl]) :
    applyStages rm patArg nsArg bl σ l =
      applyStages rm patArg nsArg bl [Stage.ns, Stage.pat, Stage.bl] l :=
  foldl_stages_perm _ (fun l s t => applyStage_comm rm patArg nsArg bl t s l) h l

/-- Witness for C2 at a concrete reordering and input. -/
theorem entity_filter_stages_commute_witness :
    ([Stage.bl, Stage.ns, Stage.pat].Perm [Stage.ns, Stage.pat, Stage.bl]) ∧
      applyStages pyMatch (some "a") (some "/ns") ["b"] [Stage.bl, Stage.ns, Stage.pat]
          ["/ns/a1", "/b2", "/ns/b3"] =
        applyStages pyMatch (some "a") (some "/ns") ["b"] [Stage.ns, Stage.pat, Stage.bl]
          ["/ns/a1", "/b2", "/ns/b3"] :=
  ⟨by decide,
   entity_filter_stages_commute pyMatch (some "a") (some "/ns") ["b"] ["/ns/a1", "/b2", "/ns/b3"]
     [Stage.bl, Stage.ns, Stage.pat] (by decide)⟩

/-- C6: blacklist filtering is purely subtractive (every survivor was in
the input) and idempotent, both for the entity-list form of `get_entities`
and for the triple form of `rosgraph_get`. -/
theorem blacklist_subtractive_idempotent (rm : String → String → Bool) (bl : List String)
    (l : List String) (g : List (String × String × String)) :
    (∀ x ∈ blFilter rm bl l, x ∈ l) ∧
      blFilter rm bl (blFilter rm bl l) = blFilter rm bl l ∧
      (∀ t ∈ blFilterG rm bl g, t ∈ g) ∧
      blFilterG rm bl (blFilterG rm bl g) = blFilterG rm bl g := by
  refine ⟨?_, ?_, ?_, ?_⟩
  · intro x hx
    unfold blFilter at hx
    split at hx
    · exact hx
    · exact (List.mem_filter.1 hx).1
  · unfold blFilter
    split
    · rfl
    · exact filter_self_idem _ l
  · intro t ht
    exact (List.mem_filter.1 ht).1
  · exact filter_self_idem _ g

/-- Witness for C6 at a concrete blacklist and inputs. -/
theorem blacklist_subtractive_idempotent_witness :
    ("/a" ∈ ["/a", "/b"]) ∧
      blFilter pyMatch ["b"] (blFilter pyMatch ["b"] ["/a", "/b"]) =
        blFilter pyMatch ["b"] ["/a", "/b"] :=
  ⟨(blacklist_subtractive_idempotent pyMatch ["b"] ["/a", "/b"] []).1 "/a" (by decide),
   (blacklist_subtractive_idempotent pyMatch ["b"] ["/a", "/b"] []).2.1⟩

/-- C10: the three stage-cardinality counters returned by `get_entities`
do not depend on the blacklist argument: two calls differing only in their
blacklists return identical `total`, `in_namespace` and `match_pattern`. -/
theorem entity_counters_blacklist_invariant (rm : String → String → Bool) (ty : String)
    (patArg nsArg : Option String) (b1 b2 : List String)
    (gtl : Except String (List (String × String) × List (String × String)))
    (gnn : Except String (List String)) :
    Except.map (fun r => (r.total, r.in_namespace, r.match_pattern))
        (get_entities rm ty patArg nsArg b1 gtl gnn) =
      Except.map (fun r => (r.total, r.in_namespace, r.match_pattern))
        (get_entities rm ty patArg nsArg b2 gtl gnn) := by
  unfold get_entities
  cases hf : (if ty = "topic" then Except.map topicEntities gtl
              else if ty = "node" then gnn
              else Except.ok []) with
  | error e => rfl
  | ok ents => rfl

lemma get_entities_ok {rm : String → String → Bool} {ty : String} {patArg nsArg : Option String}
    {bl : List String} {gtl : Except String (List (String × String) × List (String × String))}
    {gnn : Except String (List String)} {r : EntitiesResult}
    (h : get_entities rm ty patArg nsArg bl gtl gnn = Except.ok r) :
    ∃ ents, r = entitiesPipeline rm ty patArg nsArg bl ents := by
  unfold get_entities at h
  cases hf : (if ty = "topic" then Except.map topicEntities gtl
              else if ty = "node" then gnn
              else Except.ok []) with
  | error e => rw [hf] at h; cases h
  | ok ents =>
    rw [hf] at h
    cases h
    exact ⟨ents, rfl⟩

lemma blFilter_singleton_kept {rm : String → String → Bool} {bl : List String} {m : String}
    (h : ∀ b ∈ bl, rm (".*" ++ b) m = false) : blFilter rm bl [m] = [m] := by
  unfold blFilter
  split
  · rfl
  · have hany : (bl.any fun w => rm (".*" ++ w) m) = false := by
      rw [List.any_eq_false]
      intro b hb
      simp [h b hb]
    simp [List.filter_cons, hany]

lemma blFilter_singleton_dropped {rm : String → String → Bool} {bl : List String} {m : String}
    (h : ∃ b ∈ bl, rm (".*" ++ b) m = true) : blFilter rm bl [m] = [] := by
  obtain ⟨b, hb, hm⟩ := h
  have hne : bl.isEmpty = false := by
    cases bl with
    | nil => cases hb
    | cons x xs => rfl
  have hany : (bl.any fun w => rm (".*" ++ w) m) = true := List.any_eq_true.2 ⟨b, hb, hm⟩
  unfold blFilter
  rw [hne]
  simp [List.filter_cons, hany]

lemma sortStr_singleton (m : String) : sortStr [m] = [m] := rfl

lemma noneAvailMsg_ne_noneNsMsg (ty : String) (nsArg : Option String) :
    noneAvailMsg ty ≠ noneNsMsg ty nsArg := by
  intro h
  have h1 := congrArg (fun s => s.data.length) h
  simp only [noneAvailMsg, noneNsMsg, String.data_append, List.length_append] at h1
  have e1 : ("s available in the system." : String).data.length = 26 := rfl
  have e2 : ("s available using the \x27" : String).data.length = 23 := rfl
  have e3 : ("\x27 namespace." : String).data.length = 12 := rfl
  rw [e1, e2, e3] at h1
  omega

lemma noneAvailMsg_ne_nonePatMsg (ty : String) : noneAvailMsg ty ≠ nonePatMsg ty := by
  intro h
  have h1 := congrArg (fun s => s.data.length) h
  simp only [noneAvailMsg, nonePatMsg, String.data_append, List.length_append] at h1
  have e1 : ("s available in the system." : String).data.length = 26 := rfl
  have e2 : ("s available matching the specified pattern." : String).data.length = 43 := rfl
  rw [e1, e2] at h1
  omega

lemma noneNsMsg_ne_nonePatMsg (ty : String) (nsArg : Option String) :
    noneNsMsg ty nsArg ≠ nonePatMsg ty := by
  intro h
  have h1 := congrArg String.data h
  simp only [noneNsMsg, nonePatMsg, String.data_append, List.append_assoc] at h1
  have h2 := List.append_cancel_left h1
  have h3 := List.append_cancel_left h2
  have hu : (("s available using the \x27" : String).data ++
      ((optStr nsArg).data ++ ("\x27 namespace." : String).data)).take 13 =
        ("s available u" : String).data := by
    have hsplit : ("s available using the \x27" : String).data =
        ("s available u" : String).data ++ ("sing the \x27" : String).data := rfl
    rw [hsplit, List.append_assoc, List.take_append_of_le_length]
    · simp
    · rfl
  have hm : (("s available matching the specified pattern." : String).data).take 13 =
      ("s available m" : String).data := rfl
  have h4 := congrArg (List.take 13) h3
  rw [hu, hm] at h4
  have hne : ("s available u" : String).data ≠ ("s available m" : String).data := by decide
  exact hne h4

/-- C3 (amended): in `get_entities`, when a counted stage comes up empty the
final list is the single explanatory string of the first empty stage in
precedence order (no entities at all, then namespace-empty, then
pattern-empty), and the three strings are pairwise distinct — provided the
blacklist stage, which runs after the substitution, does not match the
explanatory string itself. -/
theorem empty_stage_placeholders (rm : String → String → Bool) (ty : String)
    (patArg nsArg : Option String) (bl : List String)
    (gtl : Except String (List (String × String) × List (String × String)))
    (gnn : Except String (List String)) (r : EntitiesResult)
    (h : get_entities rm ty patArg nsArg bl gtl gnn = Except.ok r) :
    (r.total = 0 → (∀ b ∈ bl, rm (".*" ++ b) (noneAvailMsg ty) = false) →
      r.entities = [noneAvailMsg ty]) ∧
    (r.total ≠ 0 → r.in_namespace = 0 →
      (∀ b ∈ bl, rm (".*" ++ b) (noneNsMsg ty nsArg) = false) →
      r.entities = [noneNsMsg ty nsArg]) ∧
    (r.total ≠ 0 → r.in_namespace ≠ 0 → r.match_pattern = 0 →
      (∀ b ∈ bl, rm (".*" ++ b) (nonePatMsg ty) = false) →
      r.entities = [nonePatMsg ty]) ∧
    noneAvailMsg ty ≠ noneNsMsg ty nsArg ∧
    noneAvailMsg ty ≠ nonePatMsg ty ∧
    noneNsMsg ty nsArg ≠ nonePatMsg ty := by
  obtain ⟨ents, rfl⟩ := get_entities_ok h
  refine ⟨?_, ?_, ?_, noneAvailMsg_ne_noneNsMsg ty nsArg, noneAvailMsg_ne_nonePatMsg ty,
    noneNsMsg_ne_nonePatMsg ty nsArg⟩
  · intro htot hbl
    simp only [entitiesPipeline] at htot ⊢
    rw [if_pos htot]
    simp only [applyStage]
    rw [blFilter_singleton_kept hbl]
    rfl
  · intro htot hns hbl
    simp only [entitiesPipeline] at htot hns ⊢
    rw [if_neg htot, if_pos hns]
    simp only [applyStage]
    rw [blFilter_singleton_kept hbl]
    rfl
  · intro htot hns hpat hbl
    simp only [entitiesPipeline] at htot hns hpat ⊢
    rw [if_neg htot, if_neg hns, if_pos hpat]
    simp only [applyStage]
    rw [blFilter_singleton_kept hbl]
    rfl

/-- Witness for C3 at a concrete empty registry with an empty blacklist. -/
theorem empty_stage_placeholders_witness :
    (get_entities pyMatch "topic" none none [] (Except.ok ([], [])) (Except.ok []) =
      Except.ok ⟨0, 0, 0, [noneAvailMsg "topic"]⟩) ∧
    (⟨0, 0, 0, [noneAvailMsg "topic"]⟩ : EntitiesResult).entities = [noneAvailMsg "topic"] :=
  ⟨rfl,
   (empty_stage_placeholders pyMatch "topic" none none [] (Except.ok ([], [])) (Except.ok [])
     ⟨0, 0, 0, [noneAvailMsg "topic"]⟩ rfl).1 rfl (fun b hb => absurd hb (List.not_mem_nil b))⟩

/-- Counterexample to C3 as stated: with zero total entities but a blacklist
matching the placeholder text, the returned list is empty, not a single
explanatory string. -/
theorem empty_stage_placeholders_cex :
    (get_entities pyMatch "topic" none none ["currently"] (Except.ok ([], [])) (Except.ok []) =
      Except.ok ⟨0, 0, 0, []⟩) ∧
    (⟨0, 0, 0, ([] : List String)⟩ : EntitiesResult).entities.length ≠ 1 :=
  ⟨rfl, by decide⟩

/-- C9: the blacklist stage of `get_entities` runs after the empty-result
placeholder substitution, so when there are zero total entities and some
blacklist pattern matches the "no entities available" placeholder, the
returned list is empty and carries no explanatory string at all. -/
theorem blacklist_erases_placeholder (rm : String → String → Bool) (ty : String)
    (patArg nsArg : Option String) (bl : List String)
    (gtl : Except String (List (String × String) × List (String × String)))
    (gnn : Except String (List String)) (r : EntitiesResult)
    (h : get_entities rm ty patArg nsArg bl gtl gnn = Except.ok r)
    (htot : r.total = 0)
    (hbl : ∃ b ∈ bl, rm (".*" ++ b) (noneAvailMsg ty) = true) :
    r.entities = [] := by
  obtain ⟨ents, rfl⟩ := get_entities_ok h
  simp only [entitiesPipeline] at htot ⊢
  rw [if_pos htot]
  simp only [applyStage]
  rw [blFilter_singleton_dropped hbl]
  rfl

/-- Witness for C9: an empty topic registry with blacklist `["There"]`. -/
theorem blacklist_erases_placeholder_witness :
    (get_entities pyMatch "topic" none none ["There"] (Except.ok ([], [])) (Except.ok []) =
      Except.ok ⟨0, 0, 0, []⟩) ∧
    (∃ b ∈ ["There"], pyMatch (".*" ++ b) (noneAvailMsg "topic") = true) ∧
    (⟨0, 0, 0, ([] : List String)⟩ : EntitiesResult).entities = [] :=
  ⟨rfl, ⟨"There", by simp, rfl⟩,
   blacklist_erases_placeholder pyMatch "topic" none none ["There"] (Except.ok ([], []))
     (Except.ok []) ⟨0, 0, 0, []⟩ rfl rfl ⟨"There", by simp, rfl⟩⟩

lemma rosgraph_get_ok {rm : String → String → Bool}
    {pubs subs svcs : List (String × List String)} {nsArg npat tpat : Option String}
    {bl : List String} {ex : Bool} {r : GraphResponse}
    (h : rosgraph_get rm (Except.ok (pubs, subs, svcs)) nsArg npat tpat bl ex = Except.ok r) :
    r = graphResponseOf (graphPipeline rm nsArg npat tpat bl ex pubs subs) := by
  by_cases hg : (graphPipeline rm nsArg npat tpat bl ex pubs subs).isEmpty = true
  · exact absurd h (by simp [rosgraph_get, hg])
  · have heq : rosgraph_get rm (Except.ok (pubs, subs, svcs)) nsArg npat tpat bl ex =
        Except.ok (graphResponseOf (graphPipeline rm nsArg npat tpat bl ex pubs subs)) := by
      simp [rosgraph_get, hg]
    rw [heq] at h
    cases h
    rfl

lemma mem_selfFilter {ex : Bool} {g : List (String × String × String)}
    {t : String × String × String} (h : t ∈ selfFilter ex g) :
    t ∈ g ∧ (ex = true → t.1 ≠ t.2.2) := by
  cases ex with
  | false => exact ⟨h, fun hx => Bool.noConfusion hx⟩
  | true =>
    unfold selfFilter at h
    rw [if_pos rfl] at h
    have h' := List.mem_filter.1 h
    exact ⟨h'.1, fun _ => by simpa using h'.2⟩

lemma mem_nodePatFilter {rm : String → String → Bool} {npat : Option String}
    {g : List (String × String × String)} {t : String × String × String}
    (h : t ∈ nodePatFilter rm npat g) : t ∈ g := by
  unfold nodePatFilter at h
  split at h
  · exact (List.mem_filter.1 h).1
  · exact h

lemma mem_blFilterG {rm : String → String → Bool} {bl : List String}
    {g : List (String × String × String)} {t : String × String × String}
    (h : t ∈ blFilterG rm bl g) : t ∈ g :=
  (List.mem_filter.1 h).1

lemma mem_rawGraph {rm : String → String → Bool} {tpat : Option String}
    {pm sm : List (String × List String)} {t : String × String × String}
    (h : t ∈ rawGraph rm tpat pm sm) :
    (lookupMap pm t.2.1).isSome = true ∧ (lookupMap sm t.2.1).isSome = true := by
  unfold rawGraph at h
  obtain ⟨tp, htp, hmem⟩ := List.mem_flatMap.1 h
  cases hl : lookupMap sm tp.1 with
  | none => rw [hl] at hmem; cases hmem
  | some subs =>
    rw [hl] at hmem
    obtain ⟨pub, _hpub, hmem2⟩ := List.mem_flatMap.1 hmem
    obtain ⟨sub, _hsub, heq⟩ := List.mem_filterMap.1 hmem2
    by_cases hskip : topicPatSkip rm tpat tp.1 = true
    · rw [if_pos hskip] at heq; cases heq
    · rw [if_neg hskip] at heq
      cases heq
      constructor
      · unfold lookupMap
        rw [Option.isSome_map']
        rw [List.find?_isSome]
        exact ⟨tp, htp, by simp⟩
      · have hl' : lookupMap sm (pub, tp.1, sub).2.1 = some subs := hl
        rw [hl']
        rfl

/-- C4: a successful `rosgraph_get` response carries the oversize warning
exactly when the emitted triple count exceeds 50, the reported connection
count is the length of the returned graph, and the graph field is the full
filtered pipeline output, never truncated. -/
theorem graph_warning_iff_oversize (rm : String → String → Bool)
    (st : Except String
      (List (String × List String) × List (String × List String) × List (String × List String)))
    (nsArg npat tpat : Option String) (bl : List String) (ex : Bool) (r : GraphResponse)
    (h : rosgraph_get rm st nsArg npat tpat bl ex = Except.ok r) :
    (r.warning.isSome = true ↔ 50 < r.total_connections) ∧
    r.total_connections = r.graph.length ∧
    (∃ pubs subs svcs, st = Except.ok (pubs, subs, svcs) ∧
      r.graph = graphPipeline rm nsArg npat tpat bl ex pubs subs) := by
  cases st with
  | error e => exact absurd h (by simp [rosgraph_get])
  | ok s =>
    obtain ⟨pubs, subs, svcs⟩ := s
    have hr := rosgraph_get_ok h
    subst hr
    refine ⟨?_, rfl, pubs, subs, svcs, rfl, rfl⟩
    show (if 50 < (graphPipeline rm nsArg npat tpat bl ex pubs subs).length then
        some graphWarningText else none).isSome = true ↔
      50 < (graphPipeline rm nsArg npat tpat bl ex pubs subs).length
    split
    · simp [*]
    · simp [*]

/-- Witness for C4 at the one-edge scenario of the specification. -/
theorem graph_warning_iff_oversize_witness :
    ((⟨2, 1, 1, [("/a/n1", "/a/t1", "/a/n2")], none⟩ : GraphResponse).warning.isSome = true ↔
      50 < (⟨2, 1, 1, [("/a/n1", "/a/t1", "/a/n2")], none⟩ : GraphResponse).total_connections) ∧
    (⟨2, 1, 1, [("/a/n1", "/a/t1", "/a/n2")], none⟩ : GraphResponse).total_connections =
      (⟨2, 1, 1, [("/a/n1", "/a/t1", "/a/n2")], none⟩ : GraphResponse).graph.length ∧
    (∃ pubs subs svcs,
      (Except.ok ([("/a/t1", ["/a/n1"])], [("/a/t1", ["/a/n2"])],
          ([] : List (String × List String))) :
        Except String
          (List (String × List String) × List (String × List String) ×
            List (String × List String))) = Except.ok (pubs, subs, svcs) ∧
      (⟨2, 1, 1, [("/a/n1", "/a/t1", "/a/n2")], none⟩ : GraphResponse).graph =
        graphPipeline pyMatch (some "/a") (some ".*") (some ".*") [] true pubs subs) :=
  graph_warning_iff_oversize pyMatch
    (Except.ok ([("/a/t1", ["/a/n1"])], [("/a/t1", ["/a/n2"])], []))
    (some "/a") (some ".*") (some ".*") [] true
    ⟨2, 1, 1, [("/a/n1", "/a/t1", "/a/n2")], none⟩ rfl

/-- C5: every triple of a successful `rosgraph_get` graph has its topic
present in both pre-filter maps (topic to publishers and topic to
subscribers), and self-connection exclusion guarantees publisher and
subscriber differ. -/
theorem graph_triples_sound (rm : String → String → Bool)
    (pubs subs svcs : List (String × List String)) (nsArg npat tpat : Option String)
    (bl : List String) (ex : Bool) (r : GraphResponse)
    (h : rosgraph_get rm (Except.ok (pubs, subs, svcs)) nsArg npat tpat bl ex = Except.ok r)
    (t : String × String × String) (ht : t ∈ r.graph) :
    (lookupMap (buildTopicMap nsArg pubs) t.2.1).isSome = true ∧
    (lookupMap (buildTopicMap nsArg subs) t.2.1).isSome = true ∧
    (ex = true → t.1 ≠ t.2.2) := by
  have hr := rosgraph_get_ok h
  subst hr
  have ht' : t ∈ graphPipeline rm nsArg npat tpat bl ex pubs subs := ht
  unfold graphPipeline at ht'
  obtain ⟨h1, hne⟩ := mem_selfFilter ht'
  have h2 := mem_nodePatFilter h1
  have h3 := mem_blFilterG h2
  obtain ⟨hp, hs⟩ := mem_rawGraph h3
  exact ⟨hp, hs, hne⟩

/-- Witness for C5 at the one-edge scenario of the specification. -/
theorem graph_triples_sound_witness :
    (lookupMap (buildTopicMap (some "/a") [("/a/t1", ["/a/n1"])]) "/a/t1").isSome = true ∧
    (lookupMap (buildTopicMap (some "/a") [("/a/t1", ["/a/n2"])]) "/a/t1").isSome = true ∧
    (true = true → "/a/n1" ≠ "/a/n2") :=
  graph_triples_sound pyMatch [("/a/t1", ["/a/n1"])] [("/a/t1", ["/a/n2"])] []
    (some "/a") (some ".*") (some ".*") [] true
    ⟨2, 1, 1, [("/a/n1", "/a/t1", "/a/n2")], none⟩ rfl
    ("/a/n1", "/a/t1", "/a/n2") (by decide)

/-- C1 (amended): exactly the five tools that wrap their registry call in
`try/except` — `rosgraph_get`, `rostopic_list`, `rosnode_list`,
`rosparam_list`, `rosparam_set` — convert a registry failure at the
function boundary into a structured error payload or a failure-prefixed
string interpolating the exception text; the remaining tools have no
`try/except`, so `rosparam_get`, `rosservice_list`, `roslog_list`,
`rospkg_list` and the detail fetchers `rostopic_info`, `rosnode_info`,
`rosservice_info`, `rosmsg_info`, `rossrv_info`, `rospkg_info` let the
underlying exception propagate to the caller. -/
theorem error_boundary_per_tool (rm : String → String → Bool)
    (patArg nsArg npat tpat rpat epat node : Option String) (bl : List String)
    (ex inc raw ign elog eapi epar : Bool)
    (e param value p base ppat nsp : String) (ps : List String) (getsize : String → Nat)
    (ms : Nat) (gnn : Except String (List String))
    (gtl : Except String (List (String × String) × List (String × String)))
    (gsh : String → String → Except String String)
    (gd : String → Except String (List String))
    (gm : String → Except String (List (String × String))) :
    rosgraph_get rm (Except.error e) nsArg npat tpat bl ex =
      Except.error ("Failed to get ROS graph: " ++ e) ∧
    rostopic_list rm patArg nsArg bl (Except.error e) gnn =
      PyResult.errorPayload ("Failed to get ROS topics: " ++ e) ∧
    rosnode_list rm patArg nsArg bl gtl (Except.error e) =
      PyResult.errorPayload ("Failed to get ROS nodes: " ++ e) ∧
    rosparam_list rm (fun _ => Except.error e) nsp bl =
      PyResult.errorPayload ("Failed to get ROS parameters: " ++ e) ∧
    (rosparam_set (fun _ _ => Except.error e) param value false).2 =
      "Failed to set parameter \x27" ++ param ++ "\x27 to \x27" ++ value ++ "\x27: " ++ e ++
        ". Try again!" ∧
    rosparam_get (fun _ => Except.error e) (p :: ps) = PyResult.raised e ∧
    rosservice_list rm (fun _ _ _ => Except.error e) node nsArg inc rpat elog eapi epar epat bl =
      PyResult.raised e ∧
    roslog_list rm base (Except.error e) getsize ms bl = PyResult.raised e ∧
    rospkg_list rm (Except.error e) ppat ign bl = PyResult.raised e ∧
    rostopic_info (fun _ => Except.error e) (p :: ps) = PyResult.raised e ∧
    rosnode_info (fun _ => Except.error e) (p :: ps) = PyResult.raised e ∧
    rosservice_info (fun _ => Except.error e) gsh (p :: ps) = PyResult.raised e ∧
    rosmsg_info (fun _ => Except.error e) (p :: ps) = PyResult.raised e ∧
    rossrv_info (fun _ _ => Except.error e) (p :: ps) raw = PyResult.raised e ∧
    rospkg_info (fun _ => Except.error e) gd gm (p :: ps) = PyResult.raised e :=
  ⟨rfl, rfl, rfl, rfl, rfl, rfl, rfl, rfl, rfl, rfl, rfl, rfl, rfl, rfl, rfl⟩

/-- Counterexample to C1 as stated: `rosparam_get` has no `try/except`, so a
failing `rosparam.get_param` call for the first key propagates out of the
tool as a raised exception instead of being converted into an error payload
or failure-prefixed string. -/
theorem rosparam_get_raises_cex :
    rosparam_get (fun _ => Except.error "boom") ["/p"] = PyResult.raised "boom" := rfl

/-- C7: with `is_rosa_param` set and a key not already under `/rosa`, the
key actually handed to `set_param` is the key rerouted under the `/rosa/`
namespace with double slashes collapsed; in particular `"foo"` is written
as `"/rosa/foo"`. -/
theorem rosa_param_key_reroute (sp : String → String → Except String Unit)
    (param value : String) (h : pyStartsWith param "/rosa" = false) :
    (rosparam_set sp param value true).1 = pyReplace ("/rosa/" ++ param) "//" "/" ∧
    (rosparam_set sp "foo" value true).1 = "/rosa/foo" := by
  constructor
  · show rosaTargetKey param true = _
    simp [rosaTargetKey, h]
  · rfl

/-- Witness for C7 at the `"foo"` scenario of the specification. -/
theorem rosa_param_key_reroute_witness :
    pyStartsWith "foo" "/rosa" = false ∧
    (rosparam_set (fun _ _ => Except.ok ()) "foo" "1" true).1 =
      pyReplace ("/rosa/" ++ "foo") "//" "/" :=
  ⟨rfl, (rosa_param_key_reroute (fun _ _ => Except.ok ()) "foo" "1" rfl).1⟩

/-- C8: for a successful `roslog_list` call (the directory listing holding
distinct file names, as `os.listdir` guarantees), the returned size mapping
contains exactly the non-blacklisted files whose byte size is at least
`min_size` (the source default is 2048), each paired with its size, and the
mapping is ordered by size, largest first. -/
theorem log_sizes_filtered_sorted (rm : String → String → Bool) (base : String)
    (files : List String) (getsize : String → Nat) (ms : Nat) (bl : List String)
    (res : LogListResult) (hnd : files.Nodup)
    (h : roslog_list rm base (Except.ok files) getsize ms bl = PyResult.ok res) :
    (∀ name sz, ((name, sz) ∈ res.logs_with_size_in_bytes) ↔
      (name ∈ files ∧ (bl.any fun w => rm (".*" ++ w) name) = false ∧
        sz = getsize ((base ++ "/") ++ name) ∧ ms ≤ sz)) ∧
    res.logs_with_size_in_bytes.Sorted sizeGe := by
  have hres : res.logs_with_size_in_bytes =
      ((files.filter (fun x => !(bl.any (fun w => rm (".*" ++ w) x)))).filterMap (fun log =>
        if ms ≤ getsize ((base ++ "/") ++ log) then
          some (log, getsize ((base ++ "/") ++ log))
        else none)).insertionSort sizeGe := by
    unfold roslog_list at h
    cases h
    rfl
  rw [hres]
  constructor
  · intro name sz
    rw [(List.perm_insertionSort sizeGe _).mem_iff, List.mem_filterMap]
    constructor
    · rintro ⟨a, ha, hfa⟩
      obtain ⟨haf, hak⟩ := List.mem_filter.1 ha
      by_cases hle : ms ≤ getsize ((base ++ "/") ++ a)
      · rw [if_pos hle] at hfa
        cases hfa
        refine ⟨haf, ?_, rfl, hle⟩
        simpa using hak
      · rw [if_neg hle] at hfa
        cases hfa
    · rintro ⟨hmem, hblk, hsz, hms⟩
      refine ⟨name, List.mem_filter.2 ⟨hmem, by simp [hblk]⟩, ?_⟩
      rw [← hsz, if_pos hms]
  · exact List.sorted_insertionSort sizeGe _

/-- Witness for C8 at the two-file scenario of the specification: a
1024-byte file is dropped and a 4096-byte file is kept. -/
theorem log_sizes_filtered_sorted_witness :
    (["a.log", "b.log"] : List String).Nodup ∧
    ((("b.log", 4096) ∈
        (⟨"/logs/", [("b.log", 4096)],
          "Recommend only displaying the top N log files when you present this list to the user."⟩ :
            LogListResult).logs_with_size_in_bytes) ↔
      ("b.log" ∈ ["a.log", "b.log"] ∧
        (([] : List String).any fun w => pyMatch (".*" ++ w) "b.log") = false ∧
        4096 = (fun q => if q = "/logs/b.log" then 4096 else 1024) (("/logs" ++ "/") ++ "b.log") ∧
        2048 ≤ 4096)) :=
  ⟨by decide,
   (log_sizes_filtered_sorted pyMatch "/logs" ["a.log", "b.log"]
     (fun q => if q = "/logs/b.log" then 4096 else 1024) 2048 []
     ⟨"/logs/", [("b.log", 4096)],
       "Recommend only displaying the top N log files when you present this list to the user."⟩
     (by decide) rfl).1 "b.log" 4096⟩
